import Mathlib

/-!
Verification of the Customer-Portal backend (`backend/index.js`).

The file shallowly embeds the backend's data model and operations:
the OAuth token cache (`getAccessToken`), the JWT session layer
(`loginHandler`, `authMiddleware`), and the `/order` route handler.
Times are modelled as `Int` milliseconds (JS `Date.now()`), upstream
HTTP responses as explicit oracle values, and side effects (identity
provider exchanges, ERP requests, server-side error logs) as an
explicit trace of events.
-/

namespace CustomerPortal

/-- JavaScript truthiness of a possibly-absent string value
(`undefined`/`null` and `""` are falsy). -/
def strTruthy : Option String → Bool
  | none => false
  | some s => s ≠ ""

/-- JavaScript truthiness of a possibly-absent numeric value
(`undefined`/`null` and `0` are falsy). -/
def intTruthy : Option Int → Bool
  | none => false
  | some n => n ≠ 0

/-- The module-level token cache: `cachedToken` / `cachedTokenExpiresAt`
(`backend/index.js` lines 62-63). -/
structure TokenCache where
  cachedToken : Option String
  cachedTokenExpiresAt : Int
deriving Repr, DecidableEq

/-- Initial state: `cachedToken = null`, `cachedTokenExpiresAt = 0`. -/
def initialCache : TokenCache := ⟨none, 0⟩

/-- The identity provider's response to a client-credentials exchange:
HTTP success flag, raw body text (read on error), and the parsed JSON
fields `access_token` and `expires_in` (`0` models a falsy/absent
`expires_in`, as JS cannot distinguish them under `||`). -/
structure TokenResponse where
  ok : Bool
  text : String
  access_token : String
  expires_in : Nat
deriving Repr, DecidableEq

/-- Observable side effects of the backend: an identity-provider token
exchange, a server-side error log, and the ERP (Business Central)
requests issued by the `/order` route.  `bcDelete` is included so that
the absence of compensating deletions is expressible; the code never
emits it. -/
inductive Effect where
  | idpExchange
  | logError (body : String)
  | bcCustomerLookup (customerNo : String)
  | bcCreateOrder (customerId : String)
  | bcCreateLine (documentId : String) (itemId : String) (quantity : Int)
  | bcDelete (resource : String)
deriving Repr, DecidableEq

/-- Whether an effect is an identity-provider exchange. -/
def isExchange : Effect → Bool
  | .idpExchange => true
  | _ => false

/-- Number of identity-provider exchanges in a trace. -/
def exchangeCount (es : List Effect) : Nat :=
  (es.filter isExchange).length

/-- Whether an effect deletes anything in the remote system. -/
def isDelete : Effect → Bool
  | .bcDelete _ => true
  | _ => false

/-- `data.expires_in || 3600` (line 96): a falsy `expires_in` defaults
to 3600 seconds. -/
def effLifetime (e : Nat) : Nat := if e = 0 then 3600 else e

/-- The fixed message of the error thrown when the exchange fails
(lines 89-91). -/
def azureErrorMsg : String :=
  "Failed to get access token from Azure. Check BC_TENANT_ID / BC_CLIENT_ID / BC_CLIENT_SECRET."

/-- A call to `getAccessToken` either returns a token string or throws
an `Error` whose message we record. -/
inductive TokenResult where
  | ok (token : String)
  | thrown (message : String)
deriving Repr, DecidableEq

/-- Result of one `getAccessToken` call: the returned token or the
thrown error's message, the token-cache state after the call, and the
trace of effects the call performed. -/
structure AuthOutcome where
  result : TokenResult
  state : TokenCache
  effects : List Effect
deriving Repr, DecidableEq

/-- The guard `cachedToken && now < cachedTokenExpiresAt` (line 68). -/
def cacheHit (now : Int) (st : TokenCache) : Bool :=
  strTruthy st.cachedToken && decide (now < st.cachedTokenExpiresAt)

/-- `getAccessToken()` (lines 65-100).  The provider's response to the
exchange (performed only on a cache miss) is the oracle `resp`.
On a miss with a successful response the credential is stored and
`cachedTokenExpiresAt = now + (expiresInSec - 60) * 1000`; on a failed
response the body is logged and an error with a fixed message is
thrown, leaving the cache untouched. -/
def getAccessToken (now : Int) (resp : TokenResponse) (st : TokenCache) : AuthOutcome :=
  if cacheHit now st then
    ⟨.ok (st.cachedToken.getD ""), st, []⟩
  else if resp.ok then
    ⟨.ok resp.access_token,
     ⟨some resp.access_token, now + ((effLifetime resp.expires_in : Int) - 60) * 1000⟩,
     [.idpExchange]⟩
  else
    ⟨.thrown azureErrorMsg, st, [.idpExchange, .logError resp.text]⟩

/-- The moment up to which the provider accepts a token it issued at
`issuedAt` with reported lifetime `expires_in` seconds — this renders
the spec's assumption that the provider honors the reported lifetime. -/
def reportedValidUntil (issuedAt : Int) (expires_in : Nat) : Int :=
  issuedAt + (expires_in : Int) * 1000

/-- A JWT payload as signed by `/login` (lines 148-152) and as read
back by `jwt.verify`; `bcCustomerNo` is optional because an arbitrary
verified payload need not carry it (the `/order` route guards for
that, lines 211-214). -/
structure JwtPayload where
  id : Nat
  email : String
  bcCustomerNo : Option String
deriving Repr, DecidableEq

/-- A session token: either a well-formed token produced by
`jwt.sign` (payload, signing secret, issue time, lifetime in ms), or
an arbitrary string that is not a valid signed token. -/
inductive Token where
  | signed (payload : JwtPayload) (secret : String) (issuedAt : Int) (lifeMs : Int)
  | garbage (s : String)
deriving Repr, DecidableEq

/-- `jwt.sign(payload, JWT_SECRET, { expiresIn: "8h" })` (line 154). -/
def jwtSign (p : JwtPayload) (secret : String) (issuedAt : Int) : Token :=
  .signed p secret issuedAt (8 * 3600 * 1000)

/-- `jwt.verify(token, JWT_SECRET)` (line 120): succeeds exactly on a
token signed with the same secret that has not yet expired. -/
def jwtVerify (t : Token) (secret : String) (now : Int) : Option JwtPayload :=
  match t with
  | .signed p s iat life => if s = secret ∧ now < iat + life then some p else none
  | .garbage _ => none

/-- One demo portal user (lines 45-58). -/
structure PortalUser where
  id : Nat
  email : String
  password : String
  bcCustomerNo : String
deriving Repr, DecidableEq

/-- `PORTAL_USERS` (lines 45-58). -/
def PORTAL_USERS : List PortalUser :=
  [⟨1, "Robertos-Rest", "Rest1234", "CUST-00466"⟩,
   ⟨2, "Robertos-Roslyn", "Ros1234", "CUST-00232"⟩]

/-- Outcome of `POST /login`: 401 with an error body, or 200 with the
signed token and `user: { email }`. -/
inductive LoginResult where
  | unauthorized (status : Nat) (error : String)
  | success (token : Token) (userEmail : String)
deriving Repr, DecidableEq

/-- The `POST /login` handler (lines 137-160): look the credentials up
in `PORTAL_USERS`, reject with 401 or sign `{id, email, bcCustomerNo}`
for 8 hours. -/
def loginHandler (secret : String) (now : Int) (email password : String) : LoginResult :=
  match PORTAL_USERS.find? (fun u => u.email == email && u.password == password) with
  | none => .unauthorized 401 "Invalid email or password"
  | some u => .success (jwtSign ⟨u.id, u.email, some u.bcCustomerNo⟩ secret now) u.email

/-- A JSON response body produced by the routes. -/
inductive ResponseBody where
  | errorBody (error : String)
  | orderCreated (success : Bool) (bcOrderNo : String) (message : String)
deriving Repr, DecidableEq

/-- An HTTP response: status code and JSON body. -/
structure HttpResponse where
  status : Nat
  body : ResponseBody
deriving Repr, DecidableEq

/-- The `Authorization` header of a request to a protected route:
absent (or falsy), a bearer token, or a malformed value that does not
start with `"Bearer "`. -/
inductive AuthHeaderVal where
  | absent
  | bearer (t : Token)
  | malformed (s : String)
deriving Repr, DecidableEq

/-- `authMiddleware` (lines 109-127): no (or malformed) header yields
401 `"No token provided"`; a bearer token that fails `jwt.verify`
yields 401 `"Invalid or expired token"`; otherwise the payload is
handed to the route handler via `req.user`. -/
def authMiddleware (secret : String) (now : Int) (h : AuthHeaderVal) :
    Except HttpResponse JwtPayload :=
  match h with
  | .absent => .error ⟨401, .errorBody "No token provided"⟩
  | .malformed _ => .error ⟨401, .errorBody "No token provided"⟩
  | .bearer t =>
    match jwtVerify t secret now with
    | some p => .ok p
    | none => .error ⟨401, .errorBody "Invalid or expired token"⟩

/-- A protected route is the middleware followed by the handler; when
the middleware rejects, the handler runs not at all (no effects). -/
def runProtected (secret : String) (now : Int) (h : AuthHeaderVal)
    (handler : JwtPayload → HttpResponse × List Effect) : HttpResponse × List Effect :=
  match authMiddleware secret now h with
  | .error resp => (resp, [])
  | .ok p => handler p

/-- One element of the `lines` array of a `POST /order` body; `id` and
`quantity` may be absent or falsy (line 285 skips such lines). -/
structure OrderLine where
  id : Option String
  quantity : Option Int
deriving Repr, DecidableEq

/-- The `lines` field of a `POST /order` body: missing, present but a
falsy non-array, a truthy non-array, or an actual array. -/
inductive LinesField where
  | missing
  | falsyVal
  | nonArray
  | array (ls : List OrderLine)
deriving Repr, DecidableEq

/-- The guard `!lines || !Array.isArray(lines) || lines.length === 0`
(line 218). -/
def linesInvalid : LinesField → Bool
  | .missing => true
  | .falsyVal => true
  | .nonArray => true
  | .array ls => ls.isEmpty

/-- The ERP (Business Central) side of one `/order` request: outcomes
of the customer lookup, the header creation, and each line-creation
request (`lineOk k` is the outcome of the `k`-th line request
issued). -/
structure Erp where
  custLookupOk : Bool
  custFound : Bool
  customerId : String
  headerOk : Bool
  orderId : String
  orderNumber : String
  lineOk : Nat → Bool

/-- `user && user.bcCustomerNo ? user.bcCustomerNo :
process.env.BC_PORTAL_CUSTOMER_NO || "C00010"` (lines 211-214); `env`
is the `BC_PORTAL_CUSTOMER_NO` environment variable. -/
def resolveCustomerNo (env : Option String) (user : JwtPayload) : String :=
  if strTruthy user.bcCustomerNo then user.bcCustomerNo.getD ""
  else if strTruthy env then env.getD "" else "C00010"

/-- The line-creation loop (lines 284-310): skip lines with falsy `id`
or `quantity`; POST each remaining line; on the first non-OK response
return the fixed 500 immediately.  Returns the failure response (if
any) and the trace of line-creation requests issued; `k` counts the
requests already issued. -/
def processLines (erp : Erp) (orderId : String) :
    List OrderLine → Nat → Option HttpResponse × List Effect
  | [], _ => (none, [])
  | l :: rest, k =>
    if strTruthy l.id && intTruthy l.quantity then
      let eff := Effect.bcCreateLine orderId (l.id.getD "") (l.quantity.getD 0)
      if erp.lineOk k then
        let r := processLines erp orderId rest (k + 1)
        (r.1, eff :: r.2)
      else
        (some ⟨500, .errorBody "Failed to add an order line in BC."⟩, [eff])
    else
      processLines erp orderId rest k

/-- The body of `POST /order` after validation succeeded (lines
222-316): obtain the bearer token (a thrown error is caught by the
route's `try`/`catch`, line 319), look the customer up, create the
header, then the lines, and answer with the created order's number. -/
def orderMain (env : Option String) (user : JwtPayload) (ls : List OrderLine)
    (now : Int) (tokResp : TokenResponse) (erp : Erp) (st : TokenCache) :
    HttpResponse × TokenCache × List Effect :=
  let customerNo := resolveCustomerNo env user
  let auth := getAccessToken now tokResp st
  match auth.result with
  | .thrown _ => (⟨500, .errorBody "Server error creating order."⟩, auth.state, auth.effects)
  | .ok _ =>
    let es0 := auth.effects ++ [Effect.bcCustomerLookup customerNo]
    if erp.custLookupOk then
      if erp.custFound then
        let es1 := es0 ++ [Effect.bcCreateOrder erp.customerId]
        if erp.headerOk then
          let r := processLines erp erp.orderId ls 0
          match r.1 with
          | some failResp => (failResp, auth.state, es1 ++ r.2)
          | none =>
            (⟨200, .orderCreated true erp.orderNumber
                ("Order " ++ erp.orderNumber ++ " created in BC.")⟩,
             auth.state, es1 ++ r.2)
        else
          (⟨500, .errorBody "Failed to create order header in BC."⟩, auth.state, es1)
      else
        (⟨400, .errorBody ("Customer number " ++ customerNo ++ " not found in this company.")⟩,
         auth.state, es0)
    else
      (⟨500, .errorBody "Failed to look up customer in BC."⟩, auth.state, es0)

/-- The `POST /order` handler (lines 208-321), as seen after
`authMiddleware` placed the verified payload in `req.user`: validate
the `lines` field (400 before any upstream contact), then run the
order-creation sequence. -/
def orderHandler (env : Option String) (user : JwtPayload) (lines : LinesField)
    (now : Int) (tokResp : TokenResponse) (erp : Erp) (st : TokenCache) :
    HttpResponse × TokenCache × List Effect :=
  if linesInvalid lines then
    (⟨400, .errorBody "No order lines provided."⟩, st, [])
  else
    match lines with
    | .array ls => orderMain env user ls now tokResp erp st
    | _ => (⟨400, .errorBody "No order lines provided."⟩, st, [])

/-! ## Claims about the token cache (C1-C4) -/

/-- C1, counterexample: the claim's consequence "two calls within the
safety margin issue exactly one upstream exchange" fails when the
provider reports a 90 s lifetime: the first call sets the cached
expiry 30 s ahead, so a second call 45 s later (within the 60 s
margin) performs a second exchange. -/
theorem c1_within_margin_counterexample :
    let resp : TokenResponse := ⟨true, "", "tok", 90⟩
    let r1 := getAccessToken 0 resp initialCache
    let r2 := getAccessToken 45000 resp r1.state
    (45000 : Int) - 0 < 60 * 1000 ∧
    exchangeCount (r1.effects ++ r2.effects) = 2 := by
  decide

/-- C1 (amended): a call finding a truthy cached token whose recorded
expiry lies strictly in the future returns the cached token unchanged
with no effects at all; and two calls starting from the empty cache,
the second occurring strictly before the expiry recorded by the first
(as holds whenever the provider-reported lifetime exceeds the safety
margin plus the gap between the calls), issue exactly one upstream
exchange. -/
theorem c1_cached_token_no_exchange :
    (∀ (now : Int) (st : TokenCache) (resp : TokenResponse),
      cacheHit now st = true →
        (getAccessToken now resp st).result = .ok (st.cachedToken.getD "") ∧
        (getAccessToken now resp st).state = st ∧
        (getAccessToken now resp st).effects = []) ∧
    (∀ (now1 now2 : Int) (resp1 resp2 : TokenResponse),
      resp1.ok = true → resp1.access_token ≠ "" →
      now2 < (getAccessToken now1 resp1 initialCache).state.cachedTokenExpiresAt →
      exchangeCount ((getAccessToken now1 resp1 initialCache).effects ++
        (getAccessToken now2 resp2 (getAccessToken now1 resp1 initialCache).state).effects)
        = 1) := by
  constructor
  · intro now st resp h
    simp [getAccessToken, h]
  · intro now1 now2 resp1 resp2 hok htok hlt
    have h1 : getAccessToken now1 resp1 initialCache =
        ⟨.ok resp1.access_token,
         ⟨some resp1.access_token,
          now1 + ((effLifetime resp1.expires_in : Int) - 60) * 1000⟩,
         [.idpExchange]⟩ := by
      simp [getAccessToken, cacheHit, initialCache, strTruthy, hok]
    rw [h1] at hlt ⊢
    have h2 : cacheHit now2
        ⟨some resp1.access_token,
         now1 + ((effLifetime resp1.expires_in : Int) - 60) * 1000⟩ = true := by
      simp [cacheHit, strTruthy, htok, hlt]
    simp [getAccessToken, h2, exchangeCount, isExchange]

/-- C1 witness: concrete instances of both parts of
`c1_cached_token_no_exchange`. -/
theorem c1_cached_token_no_exchange_witness :
    ((getAccessToken 500 ⟨false, "", "", 0⟩ ⟨some "t", 1000⟩).result = .ok "t" ∧
     (getAccessToken 500 ⟨false, "", "", 0⟩ ⟨some "t", 1000⟩).state = ⟨some "t", 1000⟩ ∧
     (getAccessToken 500 ⟨false, "", "", 0⟩ ⟨some "t", 1000⟩).effects = []) ∧
    exchangeCount ((getAccessToken 0 ⟨true, "", "tok", 3600⟩ initialCache).effects ++
      (getAccessToken 1000 ⟨true, "", "tok2", 3600⟩
        (getAccessToken 0 ⟨true, "", "tok", 3600⟩ initialCache).state).effects) = 1 := by
  exact ⟨c1_cached_token_no_exchange.1 500 ⟨some "t", 1000⟩ ⟨false, "", "", 0⟩ (by decide),
         c1_cached_token_no_exchange.2 0 1000 ⟨true, "", "tok", 3600⟩ ⟨true, "", "tok2", 3600⟩
           rfl (by decide) (by decide)⟩

/-- C2: on every refresh (cache miss with a successful exchange, the
reported lifetime exceeding the 60 s margin), the returned credential
is stored and the cached expiry is set to `now + (expires_in - 60) *
1000`; and a call on the empty cache followed by one at or after the
recorded expiry performs a second upstream exchange. -/
theorem c2_refresh_sets_expiry :
    (∀ (now : Int) (st : TokenCache) (resp : TokenResponse),
      cacheHit now st = false → resp.ok = true → 60 < resp.expires_in →
        (getAccessToken now resp st).result = .ok resp.access_token ∧
        (getAccessToken now resp st).state =
          ⟨some resp.access_token, now + ((resp.expires_in : Int) - 60) * 1000⟩ ∧
        exchangeCount (getAccessToken now resp st).effects = 1) ∧
    (∀ (now1 now2 : Int) (resp1 resp2 : TokenResponse),
      resp1.ok = true → 60 < resp1.expires_in →
      (getAccessToken now1 resp1 initialCache).state.cachedTokenExpiresAt ≤ now2 →
      exchangeCount ((getAccessToken now1 resp1 initialCache).effects ++
        (getAccessToken now2 resp2 (getAccessToken now1 resp1 initialCache).state).effects)
        = 2) := by
  constructor
  · intro now st resp hmiss hok hlife
    have hne : resp.expires_in ≠ 0 := by omega
    simp [getAccessToken, hmiss, hok, effLifetime, hne, exchangeCount, isExchange]
  · intro now1 now2 resp1 resp2 hok hlife hle
    have h1 : getAccessToken now1 resp1 initialCache =
        ⟨.ok resp1.access_token,
         ⟨some resp1.access_token,
          now1 + ((effLifetime resp1.expires_in : Int) - 60) * 1000⟩,
         [.idpExchange]⟩ := by
      simp [getAccessToken, cacheHit, initialCache, strTruthy, hok]
    rw [h1] at hle ⊢
    have h2 : cacheHit now2
        ⟨some resp1.access_token,
         now1 + ((effLifetime resp1.expires_in : Int) - 60) * 1000⟩ = false := by
      have : ¬ (now2 < now1 + ((effLifetime resp1.expires_in : Int) - 60) * 1000) :=
        not_lt.mpr hle
      simp [cacheHit, this]
    by_cases h3 : resp2.ok = true <;>
      simp [getAccessToken, h2, h3, exchangeCount, isExchange]

/-- C2 witness: concrete instances of both parts of
`c2_refresh_sets_expiry`. -/
theorem c2_refresh_sets_expiry_witness :
    ((getAccessToken 0 ⟨true, "", "tok", 3600⟩ initialCache).result = .ok "tok" ∧
     (getAccessToken 0 ⟨true, "", "tok", 3600⟩ initialCache).state =
       ⟨some "tok", 0 + ((3600 : Int) - 60) * 1000⟩ ∧
     exchangeCount (getAccessToken 0 ⟨true, "", "tok", 3600⟩ initialCache).effects = 1) ∧
    exchangeCount ((getAccessToken 0 ⟨true, "", "tok", 3600⟩ initialCache).effects ++
      (getAccessToken 4000000 ⟨true, "", "tok2", 3600⟩
        (getAccessToken 0 ⟨true, "", "tok", 3600⟩ initialCache).state).effects) = 2 := by
  exact ⟨c2_refresh_sets_expiry.1 0 initialCache ⟨true, "", "tok", 3600⟩
           (by decide) rfl (by decide),
         c2_refresh_sets_expiry.2 0 4000000 ⟨true, "", "tok", 3600⟩ ⟨true, "", "tok2", 3600⟩
           rfl (by decide) (by decide)⟩

/-- C3, counterexample: the thrown error does not carry the provider's
response body — two failed exchanges with different bodies throw the
very same fixed-message error. -/
theorem c3_error_body_counterexample :
    (getAccessToken 0 ⟨false, "providerBodyA", "", 0⟩ initialCache).result =
      (getAccessToken 0 ⟨false, "providerBodyB", "", 0⟩ initialCache).result ∧
    (getAccessToken 0 ⟨false, "providerBodyA", "", 0⟩ initialCache).result =
      .thrown azureErrorMsg := by
  decide

/-- C3 (amended): on a non-success exchange response `getAccessToken`
throws an error with a fixed message while the provider's response
body goes to the server-side error log; the cached token and expiry
are left unchanged, so every later call performs the exchange again. -/
theorem c3_failed_exchange_no_caching :
    ∀ (now : Int) (st : TokenCache) (resp : TokenResponse),
      cacheHit now st = false → resp.ok = false →
        (getAccessToken now resp st).result = .thrown azureErrorMsg ∧
        (getAccessToken now resp st).state = st ∧
        (getAccessToken now resp st).effects = [.idpExchange, .logError resp.text] ∧
        (∀ (now2 : Int) (resp2 : TokenResponse), now ≤ now2 →
          Effect.idpExchange ∈ (getAccessToken now2 resp2 (getAccessToken now resp st).state).effects) := by
  intro now st resp hmiss hok
  have hstate : (getAccessToken now resp st).state = st := by
    simp [getAccessToken, hmiss, hok]
  refine ⟨by simp [getAccessToken, hmiss, hok], hstate,
          by simp [getAccessToken, hmiss, hok], ?_⟩
  intro now2 resp2 hle
  rw [hstate]
  have hmiss2 : cacheHit now2 st = false := by
    cases hT : strTruthy st.cachedToken with
    | false => simp [cacheHit, hT]
    | true =>
      unfold cacheHit at hmiss ⊢
      rw [hT] at hmiss ⊢
      simp at hmiss ⊢
      omega
  by_cases h3 : resp2.ok = true <;> simp [getAccessToken, hmiss2, h3]

/-- C3 witness: a concrete instance of `c3_failed_exchange_no_caching`. -/
theorem c3_failed_exchange_no_caching_witness :
    (getAccessToken 7 ⟨false, "bad creds", "", 0⟩ initialCache).result = .thrown azureErrorMsg ∧
    (getAccessToken 7 ⟨false, "bad creds", "", 0⟩ initialCache).state = initialCache ∧
    (getAccessToken 7 ⟨false, "bad creds", "", 0⟩ initialCache).effects =
      [.idpExchange, .logError "bad creds"] ∧
    (∀ (now2 : Int) (resp2 : TokenResponse), (7 : Int) ≤ now2 →
      Effect.idpExchange ∈
        (getAccessToken now2 resp2
          (getAccessToken 7 ⟨false, "bad creds", "", 0⟩ initialCache).state).effects) := by
  exact c3_failed_exchange_no_caching 7 initialCache ⟨false, "bad creds", "", 0⟩
    (by decide) rfl

/-- C4, counterexample: when the provider reports a 30 s lifetime, a
fresh fetch returns a token that (even if the provider honors the
lifetime) stays valid for only 30 s — less than the 60 s safety
margin. -/
theorem c4_margin_counterexample :
    (getAccessToken 0 ⟨true, "", "tok", 30⟩ initialCache).result = .ok "tok" ∧
    reportedValidUntil 0 30 < 0 + 60 * 1000 := by
  decide

/-- C4 (amended): a cache hit always returns a token with more than
the 60 s safety margin of provider-side validity left, provided the
cached expiry was recorded from the issue time and (effective)
lifetime of that token; a fresh fetch guarantees the margin exactly
when the effective reported lifetime is at least 60 s. -/
theorem c4_returned_token_margin :
    (∀ (now issuedAt : Int) (life : Nat) (st : TokenCache) (resp : TokenResponse),
      st.cachedTokenExpiresAt = issuedAt + ((effLifetime life : Int) - 60) * 1000 →
      cacheHit now st = true →
        (getAccessToken now resp st).result = .ok (st.cachedToken.getD "") ∧
        now + 60 * 1000 ≤ reportedValidUntil issuedAt (effLifetime life)) ∧
    (∀ (now : Int) (st : TokenCache) (resp : TokenResponse),
      cacheHit now st = false → resp.ok = true → 60 ≤ effLifetime resp.expires_in →
        (getAccessToken now resp st).result = .ok resp.access_token ∧
        now + 60 * 1000 ≤ reportedValidUntil now (effLifetime resp.expires_in)) := by
  constructor
  · intro now issuedAt life st resp hexp hhit
    refine ⟨by simp [getAccessToken, hhit], ?_⟩
    have hlt : now < st.cachedTokenExpiresAt := by
      unfold cacheHit at hhit
      simp only [Bool.and_eq_true, decide_eq_true_eq] at hhit
      exact hhit.2
    rw [hexp] at hlt
    unfold reportedValidUntil
    omega
  · intro now st resp hmiss hok hlife
    refine ⟨by simp [getAccessToken, hmiss, hok], ?_⟩
    unfold reportedValidUntil
    omega

/-- C4 witness: concrete instances of both parts of
`c4_returned_token_margin`. -/
theorem c4_returned_token_margin_witness :
    ((getAccessToken 100 ⟨false, "", "", 0⟩ ⟨some "t", 3540000⟩).result = .ok "t" ∧
     (100 : Int) + 60 * 1000 ≤ reportedValidUntil 0 (effLifetime 3600)) ∧
    ((getAccessToken 0 ⟨true, "", "tok", 3600⟩ initialCache).result = .ok "tok" ∧
     (0 : Int) + 60 * 1000 ≤ reportedValidUntil 0 (effLifetime 3600)) := by
  exact ⟨c4_returned_token_margin.1 100 0 3600 ⟨some "t", 3540000⟩ ⟨false, "", "", 0⟩
           (by decide) (by decide),
         c4_returned_token_margin.2 0 initialCache ⟨true, "", "tok", 3600⟩
           (by decide) rfl (by decide)⟩

/-! ## Helper lemmas shared by the route-level claims -/

/-- `getAccessToken` never issues a deletion. -/
theorem getAccessToken_no_delete (now : Int) (resp : TokenResponse) (st : TokenCache) :
    (getAccessToken now resp st).effects.filter isDelete = [] := by
  unfold getAccessToken
  by_cases h1 : cacheHit now st = true <;>
    by_cases h2 : resp.ok = true <;>
      simp [h1, h2, isDelete]

/-- A line with falsy `id` or `quantity` is skipped: it contributes
neither a request nor a failure. -/
theorem processLines_skip (erp : Erp) (oid : String) (l : OrderLine)
    (rest : List OrderLine) (k : Nat)
    (h : (strTruthy l.id && intTruthy l.quantity) = false) :
    processLines erp oid (l :: rest) k = processLines erp oid rest k := by
  simp [processLines, h]

/-- If every line is skipped, the loop issues no requests and reports
no failure. -/
theorem processLines_all_skipped (erp : Erp) (oid : String) :
    ∀ (ls : List OrderLine) (k : Nat),
      (∀ l ∈ ls, (strTruthy l.id && intTruthy l.quantity) = false) →
      processLines erp oid ls k = (none, []) := by
  intro ls
  induction ls with
  | nil => intro k _; rfl
  | cons l rest ih =>
    intro k h
    rw [processLines_skip erp oid l rest k (h l (List.mem_cons_self l rest))]
    exact ih k fun x hx => h x (List.mem_cons_of_mem l hx)

/-- When the line loop fails, it failed with the fixed 500, the trace
of line requests it issued ends with the failing request, and every
effect it issued is a line-creation request (in particular none is a
deletion). -/
theorem processLines_fail_shape (erp : Erp) (oid : String) :
    ∀ (ls : List OrderLine) (k : Nat) (r : HttpResponse) (es : List Effect),
      processLines erp oid ls k = (some r, es) →
      r = ⟨500, .errorBody "Failed to add an order line in BC."⟩ ∧
      (∃ pre i q, es = pre ++ [Effect.bcCreateLine oid i q]) ∧
      (∀ e ∈ es, ∃ i q, e = Effect.bcCreateLine oid i q) := by
  intro ls
  induction ls with
  | nil => intro k r es h; simp [processLines] at h
  | cons l rest ih =>
    intro k r es h
    by_cases hg : (strTruthy l.id && intTruthy l.quantity) = true
    · rw [processLines] at h
      rw [if_pos hg] at h
      by_cases hok : erp.lineOk k = true
      · rw [if_pos hok] at h
        simp only [Prod.mk.injEq] at h
        obtain ⟨hfst, hsnd⟩ := h
        obtain ⟨hr, ⟨pre, i, q, hpre⟩, hall⟩ :=
          ih (k + 1) r (processLines erp oid rest (k + 1)).2
            (Prod.ext hfst rfl)
        subst hsnd
        refine ⟨hr, ⟨Effect.bcCreateLine oid (l.id.getD "") (l.quantity.getD 0) :: pre, i, q, ?_⟩, ?_⟩
        · rw [hpre]; rfl
        · intro e he
          rcases List.mem_cons.mp he with he | he
          · exact ⟨l.id.getD "", l.quantity.getD 0, he⟩
          · exact hall e he
      · rw [if_neg hok] at h
        simp only [Prod.mk.injEq, Option.some.injEq] at h
        obtain ⟨hfst, hsnd⟩ := h
        subst hsnd
        refine ⟨hfst.symm, ⟨[], l.id.getD "", l.quantity.getD 0, rfl⟩, ?_⟩
        intro e he
        rcases List.mem_cons.mp he with he | he
        · exact ⟨l.id.getD "", l.quantity.getD 0, he⟩
        · simp at he
    · rw [processLines_skip erp oid l rest k (Bool.eq_false_iff.mpr hg ▸ rfl)] at h
      exact ih k r es h

/-! ## Claims about the session layer (C5, C7) -/

/-- C5: `POST /login` with `{email: "Robertos-Rest", password:
"Rest1234"}` succeeds, returning `user: {email: "Robertos-Rest"}` and
a token signed for 8 hours whose payload decodes (verifies) to
`{id: 1, email: "Robertos-Rest", bcCustomerNo: "CUST-00466"}`. -/
theorem c5_login_robertos_rest :
    ∀ (secret : String) (now : Int),
      loginHandler secret now "Robertos-Rest" "Rest1234" =
        .success (jwtSign ⟨1, "Robertos-Rest", some "CUST-00466"⟩ secret now)
          "Robertos-Rest" ∧
      jwtSign ⟨1, "Robertos-Rest", some "CUST-00466"⟩ secret now =
        .signed ⟨1, "Robertos-Rest", some "CUST-00466"⟩ secret now (8 * 3600 * 1000) ∧
      jwtVerify (jwtSign ⟨1, "Robertos-Rest", some "CUST-00466"⟩ secret now) secret now =
        some ⟨1, "Robertos-Rest", some "CUST-00466"⟩ := by
  intro secret now
  refine ⟨rfl, rfl, ?_⟩
  show (if secret = secret ∧ now < now + 8 * 3600 * 1000 then
          some (⟨1, "Robertos-Rest", some "CUST-00466"⟩ : JwtPayload) else none) =
        some ⟨1, "Robertos-Rest", some "CUST-00466"⟩
  rw [if_pos ⟨rfl, by omega⟩]

/-- C7: a protected route answers 401 with a JSON error body — without
running the handler (no effects) — when the `Authorization` header is
absent, when the bearer token fails verification for any reason, when
its signature was made with a different secret, and when it has
expired. -/
theorem c7_protected_routes_reject :
    ∀ (secret : String) (now : Int)
      (handler : JwtPayload → HttpResponse × List Effect),
      (runProtected secret now .absent handler =
        (⟨401, .errorBody "No token provided"⟩, [])) ∧
      (∀ t, jwtVerify t secret now = none →
        runProtected secret now (.bearer t) handler =
          (⟨401, .errorBody "Invalid or expired token"⟩, [])) ∧
      (∀ p s iat life, s ≠ secret →
        runProtected secret now (.bearer (.signed p s iat life)) handler =
          (⟨401, .errorBody "Invalid or expired token"⟩, [])) ∧
      (∀ p s iat life, iat + life ≤ now →
        runProtected secret now (.bearer (.signed p s iat life)) handler =
          (⟨401, .errorBody "Invalid or expired token"⟩, [])) := by
  intro secret now handler
  refine ⟨rfl, ?_, ?_, ?_⟩
  · intro t h
    simp [runProtected, authMiddleware, h]
  · intro p s iat life h
    have hv : jwtVerify (.signed p s iat life) secret now = none := by
      show (if s = secret ∧ now < iat + life then some p else none) = none
      rw [if_neg (by rintro ⟨h1, -⟩; exact h h1)]
    simp [runProtected, authMiddleware, hv]
  · intro p s iat life h
    have hv : jwtVerify (.signed p s iat life) secret now = none := by
      show (if s = secret ∧ now < iat + life then some p else none) = none
      rw [if_neg (by rintro ⟨-, h2⟩; omega)]
    simp [runProtected, authMiddleware, hv]

/-- C7 witness: concrete instances of all four parts of
`c7_protected_routes_reject`, with a handler that would produce an
effect if it ever ran. -/
theorem c7_protected_routes_reject_witness :
    let handler : JwtPayload → HttpResponse × List Effect :=
      fun _ => (⟨200, .orderCreated true "SO-1" "ok"⟩, [Effect.bcCreateOrder "cid"])
    (runProtected "change-me" 200 .absent handler =
      (⟨401, .errorBody "No token provided"⟩, [])) ∧
    (runProtected "change-me" 200 (.bearer (.garbage "zzz")) handler =
      (⟨401, .errorBody "Invalid or expired token"⟩, [])) ∧
    (runProtected "change-me" 200
        (.bearer (.signed ⟨1, "e", none⟩ "other-secret" 0 28800000)) handler =
      (⟨401, .errorBody "Invalid or expired token"⟩, [])) ∧
    (runProtected "change-me" 200 (.bearer (.signed ⟨1, "e", none⟩ "change-me" 0 100)) handler =
      (⟨401, .errorBody "Invalid or expired token"⟩, [])) := by
  intro handler
  have h := c7_protected_routes_reject "change-me" 200 handler
  exact ⟨h.1, h.2.1 (.garbage "zzz") rfl,
         h.2.2.1 ⟨1, "e", none⟩ "other-secret" 0 28800000 (by decide),
         h.2.2.2 ⟨1, "e", none⟩ "change-me" 0 100 (by decide)⟩

/-! ## Claims about the order route (C6, C8, C9, C10) -/

/-- C6: a `POST /order` whose `lines` field is missing, a non-array
(falsy or truthy), or an empty array is answered 400 with the fixed
error body, the token cache is untouched, and no request at all goes
to the identity provider or the ERP API. -/
theorem c6_invalid_lines_400_no_upstream :
    ∀ (env : Option String) (user : JwtPayload) (lf : LinesField)
      (now : Int) (tokResp : TokenResponse) (erp : Erp) (st : TokenCache),
      (lf = .missing ∨ lf = .falsyVal ∨ lf = .nonArray ∨ lf = .array []) →
      orderHandler env user lf now tokResp erp st =
        (⟨400, .errorBody "No order lines provided."⟩, st, []) := by
  intro env user lf now tokResp erp st h
  rcases h with h | h | h | h <;> subst h <;> rfl

/-- C6 witness: a concrete instance of
`c6_invalid_lines_400_no_upstream` for the empty-array case. -/
theorem c6_invalid_lines_400_no_upstream_witness :
    orderHandler none ⟨1, "Robertos-Rest", some "CUST-00466"⟩ (.array []) 0
        ⟨true, "", "tok", 3600⟩ ⟨true, true, "cid", true, "oid", "SO-1", fun _ => true⟩
        initialCache =
      (⟨400, .errorBody "No order lines provided."⟩, initialCache, []) := by
  exact c6_invalid_lines_400_no_upstream none ⟨1, "Robertos-Rest", some "CUST-00466"⟩
    (.array []) 0 ⟨true, "", "tok", 3600⟩
    ⟨true, true, "cid", true, "oid", "SO-1", fun _ => true⟩ initialCache
    (Or.inr (Or.inr (Or.inr rfl)))

/-- C8: when a line-creation request fails upstream, `POST /order`
answers the fixed 500 immediately: the whole effect trace ends with
the failing line request (nothing further is issued), it contains no
deletion (so the created header and the earlier lines remain), and the
header-creation request is part of the trace. -/
theorem c8_line_failure_no_compensation :
    ∀ (env : Option String) (user : JwtPayload) (ls : List OrderLine)
      (now : Int) (tokResp : TokenResponse) (erp : Erp) (st : TokenCache)
      (tok : String) (fr : HttpResponse) (les : List Effect),
      linesInvalid (.array ls) = false →
      (getAccessToken now tokResp st).result = .ok tok →
      erp.custLookupOk = true → erp.custFound = true → erp.headerOk = true →
      processLines erp erp.orderId ls 0 = (some fr, les) →
      orderHandler env user (.array ls) now tokResp erp st =
        (⟨500, .errorBody "Failed to add an order line in BC."⟩,
         (getAccessToken now tokResp st).state,
         ((getAccessToken now tokResp st).effects ++
           [Effect.bcCustomerLookup (resolveCustomerNo env user)] ++
           [Effect.bcCreateOrder erp.customerId]) ++ les) ∧
      (∃ pre i q, les = pre ++ [Effect.bcCreateLine erp.orderId i q]) ∧
      (((getAccessToken now tokResp st).effects ++
          [Effect.bcCustomerLookup (resolveCustomerNo env user)] ++
          [Effect.bcCreateOrder erp.customerId]) ++ les).filter isDelete = [] := by
  intro env user ls now tokResp erp st tok fr les hval hres hlk hfound hheader hproc
  obtain ⟨hfr, hshape, hall⟩ :=
    processLines_fail_shape erp erp.orderId ls 0 fr les hproc
  subst hfr
  refine ⟨?_, hshape, ?_⟩
  · unfold orderHandler
    rw [hval]
    simp only [Bool.false_eq_true, if_false]
    simp only [orderMain]
    rw [hres]
    simp [hlk, hfound, hheader, hproc]
  · rw [List.filter_append, List.filter_append, List.filter_append,
        getAccessToken_no_delete]
    have h2 : les.filter isDelete = [] := by
      rw [List.filter_eq_nil_iff]
      intro e he
      obtain ⟨i, q, he⟩ := hall e he
      subst he
      simp [isDelete]
    rw [h2]
    rfl

/-- C8 witness: a concrete two-line order whose second line request
fails, instantiating `c8_line_failure_no_compensation`. -/
theorem c8_line_failure_no_compensation_witness :
    let erp : Erp := ⟨true, true, "cid", true, "OID", "SO-1", fun k => k == 0⟩
    let ls : List OrderLine := [⟨some "I1", some 2⟩, ⟨some "I2", some 3⟩]
    orderHandler none ⟨1, "e", some "CUST-00466"⟩ (.array ls) 0 ⟨true, "", "tok", 3600⟩
        erp initialCache =
      (⟨500, .errorBody "Failed to add an order line in BC."⟩,
       (getAccessToken 0 ⟨true, "", "tok", 3600⟩ initialCache).state,
       ((getAccessToken 0 ⟨true, "", "tok", 3600⟩ initialCache).effects ++
         [Effect.bcCustomerLookup (resolveCustomerNo none ⟨1, "e", some "CUST-00466"⟩)] ++
         [Effect.bcCreateOrder "cid"]) ++
        [Effect.bcCreateLine "OID" "I1" 2, Effect.bcCreateLine "OID" "I2" 3]) ∧
    (∃ pre i q,
      [Effect.bcCreateLine "OID" "I1" 2, Effect.bcCreateLine "OID" "I2" 3] =
        pre ++ [Effect.bcCreateLine "OID" i q]) ∧
    (((getAccessToken 0 ⟨true, "", "tok", 3600⟩ initialCache).effects ++
        [Effect.bcCustomerLookup (resolveCustomerNo none ⟨1, "e", some "CUST-00466"⟩)] ++
        [Effect.bcCreateOrder "cid"]) ++
      [Effect.bcCreateLine "OID" "I1" 2, Effect.bcCreateLine "OID" "I2" 3]).filter
        isDelete = [] := by
  exact c8_line_failure_no_compensation none ⟨1, "e", some "CUST-00466"⟩
    [⟨some "I1", some 2⟩, ⟨some "I2", some 3⟩] 0 ⟨true, "", "tok", 3600⟩
    ⟨true, true, "cid", true, "OID", "SO-1", fun k => k == 0⟩ initialCache
    "tok" ⟨500, .errorBody "Failed to add an order line in BC."⟩
    [Effect.bcCreateLine "OID" "I1" 2, Effect.bcCreateLine "OID" "I2" 3]
    (by decide) (by decide) rfl rfl rfl (by decide)

/-- C9: a line with falsy `id` or falsy `quantity` (including
quantity 0) is skipped silently — it produces no upstream request and
no failure — and an order all of whose lines are skipped still creates
the header and is answered with success. -/
theorem c9_falsy_lines_skipped :
    (∀ (erp : Erp) (oid : String) (l : OrderLine) (rest : List OrderLine) (k : Nat),
      (strTruthy l.id && intTruthy l.quantity) = false →
      processLines erp oid (l :: rest) k = processLines erp oid rest k) ∧
    (∀ (env : Option String) (user : JwtPayload) (ls : List OrderLine)
       (now : Int) (tokResp : TokenResponse) (erp : Erp) (st : TokenCache)
       (tok : String),
      linesInvalid (.array ls) = false →
      (∀ l ∈ ls, (strTruthy l.id && intTruthy l.quantity) = false) →
      (getAccessToken now tokResp st).result = .ok tok →
      erp.custLookupOk = true → erp.custFound = true → erp.headerOk = true →
      orderHandler env user (.array ls) now tokResp erp st =
        (⟨200, .orderCreated true erp.orderNumber
            ("Order " ++ erp.orderNumber ++ " created in BC.")⟩,
         (getAccessToken now tokResp st).state,
         (getAccessToken now tokResp st).effects ++
           [Effect.bcCustomerLookup (resolveCustomerNo env user),
            Effect.bcCreateOrder erp.customerId])) := by
  constructor
  · exact processLines_skip
  · intro env user ls now tokResp erp st tok hval hskip hres hlk hfound hheader
    unfold orderHandler
    rw [hval]
    simp only [Bool.false_eq_true, if_false]
    simp only [orderMain]
    rw [hres]
    rw [processLines_all_skipped erp erp.orderId ls 0 hskip]
    simp [hlk, hfound, hheader]

/-- C9 witness: an order whose two lines have quantity 0 and a missing
id, instantiating both parts of `c9_falsy_lines_skipped`. -/
theorem c9_falsy_lines_skipped_witness :
    let erp : Erp := ⟨true, true, "cid", true, "OID", "SO-1", fun _ => true⟩
    let ls : List OrderLine := [⟨some "I1", some 0⟩, ⟨none, some 5⟩]
    processLines erp "OID" (⟨some "I1", some 0⟩ :: [⟨none, some 5⟩]) 0 =
      processLines erp "OID" [⟨none, some 5⟩] 0 ∧
    orderHandler none ⟨1, "e", some "CUST-00466"⟩ (.array ls) 0 ⟨true, "", "tok", 3600⟩
        erp initialCache =
      (⟨200, .orderCreated true "SO-1" ("Order " ++ "SO-1" ++ " created in BC.")⟩,
       (getAccessToken 0 ⟨true, "", "tok", 3600⟩ initialCache).state,
       (getAccessToken 0 ⟨true, "", "tok", 3600⟩ initialCache).effects ++
         [Effect.bcCustomerLookup (resolveCustomerNo none ⟨1, "e", some "CUST-00466"⟩),
          Effect.bcCreateOrder "cid"]) := by
  intro erp ls
  exact ⟨c9_falsy_lines_skipped.1 erp "OID" ⟨some "I1", some 0⟩ [⟨none, some 5⟩] 0 (by decide),
         c9_falsy_lines_skipped.2 none ⟨1, "e", some "CUST-00466"⟩ ls 0
           ⟨true, "", "tok", 3600⟩ erp initialCache "tok"
           (by decide) (by decide) rfl rfl rfl rfl⟩

/-- C10: a verified payload without a truthy `bcCustomerNo` does not
make the order fail: the customer number falls back to the
`BC_PORTAL_CUSTOMER_NO` environment variable when that is truthy and
to the literal `"C00010"` when it is unset, and the customer lookup is
issued with the resolved number. -/
theorem c10_customer_number_fallback :
    (∀ (user : JwtPayload),
      strTruthy user.bcCustomerNo = false →
        (∀ s, s ≠ "" → resolveCustomerNo (some s) user = s) ∧
        resolveCustomerNo none user = "C00010") ∧
    (∀ (env : Option String) (user : JwtPayload) (ls : List OrderLine)
       (now : Int) (tokResp : TokenResponse) (erp : Erp) (st : TokenCache)
       (tok : String),
      linesInvalid (.array ls) = false →
      (getAccessToken now tokResp st).result = .ok tok →
      Effect.bcCustomerLookup (resolveCustomerNo env user) ∈
        (orderHandler env user (.array ls) now tokResp erp st).2.2) := by
  constructor
  · intro user h
    constructor
    · intro s hs
      unfold resolveCustomerNo
      rw [h]
      simp [strTruthy, hs]
    · unfold resolveCustomerNo
      rw [h]
      simp [strTruthy]
  · intro env user ls now tokResp erp st tok hval hres
    unfold orderHandler
    rw [hval]
    simp only [Bool.false_eq_true, if_false]
    simp only [orderMain]
    rw [hres]
    by_cases h1 : erp.custLookupOk = true
    · by_cases h2 : erp.custFound = true
      · by_cases h3 : erp.headerOk = true
        · simp only [h1, h2, h3, if_true]
          cases hp : (processLines erp erp.orderId ls 0).1 <;>
            simp [List.mem_append]
        · simp [h1, h2, h3, List.mem_append]
      · simp [h1, h2, List.mem_append]
    · simp [h1, List.mem_append]

/-- C10 witness: concrete instances of both parts of
`c10_customer_number_fallback`, with a payload lacking
`bcCustomerNo`. -/
theorem c10_customer_number_fallback_witness :
    ((resolveCustomerNo (some "C77777") ⟨9, "e", none⟩ = "C77777") ∧
     resolveCustomerNo none ⟨9, "e", none⟩ = "C00010") ∧
    Effect.bcCustomerLookup (resolveCustomerNo none ⟨9, "e", none⟩) ∈
      (orderHandler none ⟨9, "e", none⟩ (.array [⟨some "I1", some 2⟩]) 0
        ⟨true, "", "tok", 3600⟩ ⟨true, true, "cid", true, "OID", "SO-1", fun _ => true⟩
        initialCache).2.2 := by
  have h1 := c10_customer_number_fallback.1 ⟨9, "e", none⟩ (by decide)
  exact ⟨⟨h1.1 "C77777" (by decide), h1.2⟩,
         c10_customer_number_fallback.2 none ⟨9, "e", none⟩ [⟨some "I1", some 2⟩] 0
           ⟨true, "", "tok", 3600⟩ ⟨true, true, "cid", true, "OID", "SO-1", fun _ => true⟩
           initialCache "tok" (by decide) rfl⟩

end CustomerPortal
